import Mathlib

/-
Shallow embedding of blender's `gpu_uniformbuffer.c` (dynamic uniform buffer
objects).  The C file manages GPU-resident uniform buffers: a static kind and
a dynamic kind whose layout is computed from a list of shader inputs.

Modelling conventions:
* machine integers become `Nat` (all quantities here are small and
  non-negative; `bindpoint` is `Int` since the C uses -1 for "unbound");
* `GPUType` is the numeric value of the C enum (GPU_FLOAT = 1, GPU_VEC2 = 2,
  GPU_VEC3 = 3, GPU_VEC4 = 4): the C code uses the enum value arithmetically
  (`offset += gputype`), so the model keeps it as a number;
* memory blocks become byte-indexed total functions `Nat → Nat`
  (byte address to byte value); `memcpy` is pointwise overwrite;
* a `GPUInput`'s identity (C compares node pointers, e.g. `BLI_findindex`)
  is modelled by carrying the input's index in the original list alongside
  the input; `LinkData` nodes of the snapshot list become `Nat × GPUInput`;
* OpenGL calls are recorded in a trace (`List GLCall`); the GL handle
  returned by `glGenBuffers` and the platform limits `GPU_max_ubo_size()` /
  `GPU_max_ubo_binds()` are external collaborators and become parameters;
* `BLI_assert` failures and dereferences of NULL list links abort execution:
  functions that can hit them return `Option` (`none` = abort);
* the debug `printf` calls in `GPU_uniformbuffer_dynamic_eval` have no
  semantic effect and are not modelled.
-/

/-- The `GPUSourceType` enum from gpu_codegen.h.  Only the comparison with
`GPU_SOURCE_VEC_UNIFORM` matters to this file; all other enum values are
collapsed into one constructor. -/
inductive GPUSourceType where
  | GPU_SOURCE_VEC_UNIFORM : GPUSourceType
  | GPU_SOURCE_OTHER : GPUSourceType
deriving DecidableEq

/-- Numeric value of `GPU_FLOAT` in the `GPUType` enum (1 float component). -/
def GPU_FLOAT : Nat := 1

/-- Numeric value of `GPU_VEC2` (2 float components). -/
def GPU_VEC2 : Nat := 2

/-- Numeric value of `GPU_VEC3` (3 float components). -/
def GPU_VEC3 : Nat := 3

/-- Numeric value of `GPU_VEC4` (4 float components). -/
def GPU_VEC4 : Nat := 4

/-- `#define MAX_UBO_GPU_TYPE GPU_VEC4`: largest supported component class. -/
def MAX_UBO_GPU_TYPE : Nat := GPU_VEC4

/-- A `GPUInput` as seen by this file: its source tag, whether it has a
producing `link` (only presence matters), its `GPUType`, and its live-value
source `dynamicvec` (a `float *` in C; modelled as an optional byte-indexed
function, `none` = NULL pointer). -/
structure GPUInput where
  source : GPUSourceType
  link : Option Unit
  type : Nat
  dynamicvec : Option (Nat → Nat)

/-- The `GPUUniformBufferType` enum. -/
inductive GPUUniformBufferType where
  | GPU_UBO_STATIC : GPUUniformBufferType
  | GPU_UBO_DYNAMIC : GPUUniformBufferType
deriving DecidableEq

/-- `struct GPUUniformBufferDynamicItem`: padded type, offset (in float
units, exactly as accumulated by `offset += gputype` in the C), and byte
size (`gputype * sizeof(float)`). -/
structure GPUUniformBufferDynamicItem where
  gputype : Nat
  offset : Nat
  size : Nat
deriving DecidableEq

/-- `GPUUniformBuffer` together with the `GPUUniformBufferDynamic` extension.
The C lays the dynamic struct over the base struct; the model merges them
(the dynamic-only fields are unused for static buffers).  The `char flag`
bitfield (bits `GPU_UBO_FLAG_INITIALIZED` and `GPU_UBO_FLAG_DIRTY`) is
modelled as the two booleans `flag_init` and `flag_dirty`. -/
structure GPUUniformBuffer where
  size : Nat
  bindcode : Nat
  bindpoint : Int
  type : GPUUniformBufferType
  items : List GPUUniformBufferDynamicItem
  data : Nat → Nat
  id_lookup : List Nat
  flag_init : Bool
  flag_dirty : Bool

/-- One recorded OpenGL call (the GL_UNIFORM_BUFFER target is implicit). -/
inductive GLCall where
  | glBindBuffer (buffer : Nat) : GLCall
  | glBufferData (size : Nat) : GLCall
  | glBufferSubData (offset : Nat) (size : Nat) : GLCall
  | glBindBufferBase (index : Int) (buffer : Nat) : GLCall
  | glGenBuffers : GLCall
  | glDeleteBuffers (buffer : Nat) : GLCall
deriving DecidableEq

/-- `memcpy(dst_base + dst, src, n)` on byte-indexed memory: bytes
`[dst, dst+n)` of the block take the first `n` bytes of `src`. -/
def memcpy_bytes (data : Nat → Nat) (dst : Nat) (src : Nat → Nat) (n : Nat) :
    Nat → Nat :=
  fun a => if dst ≤ a ∧ a < dst + n then src (a - dst) else data a

/-- `gpu_input_is_dynamic_uniform`: the input's source is
`GPU_SOURCE_VEC_UNIFORM` and its `link` is NULL. -/
def gpu_input_is_dynamic_uniform (input : GPUInput) : Bool :=
  decide (input.source = GPUSourceType.GPU_SOURCE_VEC_UNIFORM) &&
    input.link.isNone

/-- GL trace of `gpu_uniformbuffer_initialize` (full `glBufferData`
allocation + upload of `ubo->size` bytes). -/
def gpu_uniformbuffer_initialize_calls (ubo : GPUUniformBuffer) : List GLCall :=
  [GLCall.glBindBuffer ubo.bindcode, GLCall.glBufferData ubo.size,
   GLCall.glBindBuffer 0]

/-- GL trace of the static `gpu_uniformbuffer_update` helper
(`glBufferSubData` over `[0, ubo->size)`). -/
def gpu_uniformbuffer_update_calls (ubo : GPUUniformBuffer) : List GLCall :=
  [GLCall.glBindBuffer ubo.bindcode, GLCall.glBufferSubData 0 ubo.size,
   GLCall.glBindBuffer 0]

/-- GL trace of `GPU_uniformbuffer_free`: the dynamic reset only frees CPU
memory; the GL part is `glDeleteBuffers`. -/
def GPU_uniformbuffer_free_calls (ubo : GPUUniformBuffer) : List GLCall :=
  [GLCall.glDeleteBuffers ubo.bindcode]

/-- `inputs_cmp`: returns 1 if the first snapshot node should be placed
after the second one, i.e. when its input's type value is smaller. -/
def inputs_cmp (a b : Nat × GPUInput) : Nat :=
  if a.2.type < b.2.type then 1 else 0

/-- The "may keep `a` before `b`" relation induced by `inputs_cmp` under
`BLI_listbase_sort`'s contract ("Returns 1 if the first item should be after
second item"). -/
def linkGE (a b : Nat × GPUInput) : Prop :=
  inputs_cmp a b ≠ 1

instance : DecidableRel linkGE :=
  fun a b => inferInstanceAs (Decidable (inputs_cmp a b ≠ 1))

instance : IsTotal (Nat × GPUInput) linkGE :=
  ⟨fun a b => by
    unfold linkGE inputs_cmp
    split_ifs <;> simp_all <;> omega⟩

instance : IsTrans (Nat × GPUInput) linkGE :=
  ⟨fun a b c hab hbc => by
    unfold linkGE inputs_cmp at *
    split_ifs at * <;> simp_all <;> omega⟩

/-- Modelled from the spec: `BLI_listbase_sort` (BLI_listbase.c, not under
src/) is a stable list sort where `cmp a b = 1` means `a` is placed after
`b`; per the spec it performs a "stable sort on class only", preserving the
relative order of entries the comparator ties.  Modelled as insertion sort
with the tie-keeping relation `linkGE`, which is stable in exactly this
sense, specialised to the snapshot nodes this file sorts. -/
def BLI_listbase_sort (l : List (Nat × GPUInput)) : List (Nat × GPUInput) :=
  List.insertionSort linkGE l

/-- The while-loop of `gpu_uniformbuffer_inputs_sort` (lines 350-371).
State of the walk over the sorted list: `acc` holds the entries already
passed by the cursor, in reverse; the cursor sits on the head of
`restNF ++ floats`, where `floats` is the chain `inputs_lookup[GPU_FLOAT]`
of floats not yet relocated (on the sorted lists this pass receives, the
remaining floats are exactly the trailing run of the list) and `restNF` is
everything between the cursor and that chain.  Each iteration mirrors the C:
stop if the cursor's entry is not a vec3 (while condition), or if its
successor is NULL or a float (break); otherwise move the head float (if any
is left) to just after the cursor and advance the cursor. -/
def pairing_loop :
    List (Nat × GPUInput) → List (Nat × GPUInput) → List (Nat × GPUInput) →
      List (Nat × GPUInput)
  | acc, [], [] => acc.reverse
  | acc, [], f :: fs => acc.reverse ++ f :: fs
  | acc, link :: restNF, floats =>
    if link.2.type = GPU_VEC3 then
      match restNF, floats with
      | [], [] => acc.reverse ++ [link]
      | [], f :: fs => acc.reverse ++ link :: f :: fs
      | nxt :: rest2, floats =>
        if nxt.2.type = GPU_FLOAT then
          acc.reverse ++ link :: (nxt :: rest2) ++ floats
        else
          match floats with
          | [] => pairing_loop (link :: acc) (nxt :: rest2) []
          | f :: fs => pairing_loop (f :: link :: acc) (nxt :: rest2) fs
    else acc.reverse ++ link :: restNF ++ floats

/-- `gpu_uniformbuffer_inputs_sort`: sort the snapshot list with
`BLI_listbase_sort`/`inputs_cmp`, then run the float-relocation pass.  The
C builds `inputs_lookup[]` (first link of each type's run) over the sorted
list; on the sorted list the `GPU_VEC3` run starts at the first vec3 and
`inputs_lookup[GPU_FLOAT]` starts the trailing float run (input types here
are the vec-uniform classes 1-4, so floats sort last). -/
def gpu_uniformbuffer_inputs_sort (inputs : List (Nat × GPUInput)) :
    List (Nat × GPUInput) :=
  let sorted := BLI_listbase_sort inputs
  if sorted.all (fun e => e.2.type != GPU_VEC3) then
    sorted
  else
    let pre := sorted.takeWhile (fun e => e.2.type != GPU_VEC3)
    let rest := sorted.dropWhile (fun e => e.2.type != GPU_VEC3)
    let floats := (rest.reverse.takeWhile (fun e => e.2.type == GPU_FLOAT)).reverse
    let restNF := (rest.reverse.dropWhile (fun e => e.2.type == GPU_FLOAT)).reverse
    pre ++ pairing_loop [] restNF floats

/-- `get_padded_gpu_type`: a vec3 is promoted to vec4 unless it is the last
link (`link->next == NULL`) or the next link's input is a float. -/
def get_padded_gpu_type (input : GPUInput) (next : Option GPUInput) : Nat :=
  match next with
  | some nextInput =>
    if input.type = GPU_VEC3 ∧ nextInput.type ≠ GPU_FLOAT then GPU_VEC4
    else input.type
  | none => input.type

/-- `gpu_uniformbuffer_populate`: asserts `gputype <= MAX_UBO_GPU_TYPE`
(`none` = assertion failure), then appends an item of byte size
`gputype * sizeof(float)` at the given offset, grows `buffer.size` and sets
the dirty flag. -/
def gpu_uniformbuffer_populate (ubo : GPUUniformBuffer) (gputype : Nat)
    (offset : Nat) : Option GPUUniformBuffer :=
  if gputype ≤ MAX_UBO_GPU_TYPE then
    some { ubo with
            size := ubo.size + gputype * 4,
            flag_dirty := true,
            items := ubo.items ++
              [{ gputype := gputype, offset := offset, size := gputype * 4 }] }
  else
    none

/-- The populate loop of `GPU_uniformbuffer_dynamic_sort_and_create`
(lines 181-191): walk the sorted snapshot; for each dynamic-uniform node
compute the padded type from its successor, populate an item at the running
offset, advance the offset by the type's component count, and record the
node's index in the original input list (pointer identity = carried index,
so `BLI_findindex` returns `idx` and the `id != -1` assert holds).
Returns the grown buffer and the `id_lookup` contents. -/
def build_ubo_loop (ubo : GPUUniformBuffer) :
    List (Nat × GPUInput) → Nat → Option (GPUUniformBuffer × List Nat)
  | [], _ => some (ubo, [])
  | (idx, input) :: rest, offset =>
    if gpu_input_is_dynamic_uniform input then
      match gpu_uniformbuffer_populate ubo
          (get_padded_gpu_type input (Option.map Prod.snd rest.head?))
          offset with
      | none => none
      | some ubo1 =>
        match build_ubo_loop ubo1 rest
            (offset +
              get_padded_gpu_type input (Option.map Prod.snd rest.head?)) with
        | none => none
        | some (ubo2, ids) => some (ubo2, idx :: ids)
    else
      build_ubo_loop ubo rest offset

/-- The loop of `GPU_uniformbuffer_dynamic_eval` (lines 251-267): walk the
given inputs in order; for each dynamic-uniform input, assert its
`dynamicvec` is non-NULL, consume the next `id` from the lookup cursor,
resolve `BLI_findlink(&ubo->items, id)` and `memcpy` `item->size` bytes from
the input's `dynamicvec` to `(float *)ubo->data + item->offset`, i.e. byte
address `4 * item.offset`.  `none` models the aborts: a NULL `dynamicvec`
(assert), a cursor past the end of the `id_lookup` array, or a NULL item
from `BLI_findlink` (dereferenced unconditionally in the C). -/
def eval_loop (items : List GPUUniformBufferDynamicItem) :
    List GPUInput → List Nat → (Nat → Nat) → Option (Nat → Nat)
  | [], _, data => some data
  | input :: rest, lookup, data =>
    if gpu_input_is_dynamic_uniform input then
      match input.dynamicvec with
      | none => none
      | some vec =>
        match lookup with
        | [] => none
        | id :: lookup1 =>
          match items.get? id with
          | none => none
          | some item =>
            eval_loop items rest lookup1
              (memcpy_bytes data (4 * item.offset) vec item.size)
    else
      eval_loop items rest lookup data

/-- `GPU_uniformbuffer_dynamic_eval`: refresh the CPU staging block from the
inputs' live values (never touches the GPU, never touches the flags). -/
def GPU_uniformbuffer_dynamic_eval (ubo : GPUUniformBuffer)
    (inputs : List GPUInput) : Option GPUUniformBuffer :=
  (eval_loop ubo.items inputs ubo.id_lookup ubo.data).map
    (fun d => { ubo with data := d })

/-- `GPU_uniformbuffer_dynamic_update`: first call takes the full
`glBufferData` path (via `gpu_uniformbuffer_initialize`) and sets the
INITIALIZED flag; later calls take the `glBufferSubData` path; both clear
the DIRTY flag on exit. -/
def GPU_uniformbuffer_dynamic_update (ubo : GPUUniformBuffer) :
    GPUUniformBuffer × List GLCall :=
  if ubo.flag_init then
    ({ ubo with flag_dirty := false }, gpu_uniformbuffer_update_calls ubo)
  else
    ({ ubo with flag_init := true, flag_dirty := false },
     gpu_uniformbuffer_initialize_calls ubo)

/-- `GPU_uniformbuffer_bind`: reject slots at or above the platform bind
limit (diagnostic on stderr, modelled by the returned boolean, and no GL
call, state unchanged); otherwise flush a dirty dynamic buffer through
`GPU_uniformbuffer_dynamic_update`, then `glBindBufferBase` when the handle
is non-zero, and record the bind point. -/
def GPU_uniformbuffer_bind (ubo : GPUUniformBuffer) (number : Int)
    (maxBinds : Int) : GPUUniformBuffer × List GLCall × Bool :=
  if number ≥ maxBinds then
    (ubo, [], true)
  else
    let step1 :=
      if ubo.type = GPUUniformBufferType.GPU_UBO_DYNAMIC ∧ ubo.flag_dirty then
        GPU_uniformbuffer_dynamic_update ubo
      else
        (ubo, [])
    let bindCalls :=
      if step1.1.bindcode ≠ 0 then
        [GLCall.glBindBufferBase number step1.1.bindcode]
      else
        []
    ({ step1.1 with bindpoint := number }, step1.2 ++ bindCalls, false)

/-- `GPU_uniformbuffer_unbind`. -/
def GPU_uniformbuffer_unbind (ubo : GPUUniformBuffer) : GPUUniformBuffer :=
  { ubo with bindpoint := -1 }

/-- `GPU_uniformbuffer_tag_dirty`. -/
def GPU_uniformbuffer_tag_dirty (ubo : GPUUniformBuffer) : GPUUniformBuffer :=
  { ubo with flag_dirty := true }

/-- Outcome of `GPU_uniformbuffer_dynamic_sort_and_create`: NULL return,
a successfully built buffer, or an aborted execution (assert failure /
NULL dereference inside the initial eval). -/
inductive BuildResult where
  | nullReturn : BuildResult
  | built : GPUUniformBuffer → BuildResult
  | abort : BuildResult

/-- The error message of the `!bindcode` path. -/
def createFailedMsg : String := "GPUUniformBuffer: UBO create failed"

/-- The error message of the size-limit path. -/
def tooBigMsg : String := "GPUUniformBuffer: UBO too big"

/-- The snapshot filter (lines 142-147): the dynamic-uniform inputs, each
carried with its index in the original list (= node pointer identity). -/
def snapshotOf (inputs : List GPUInput) : List (Nat × GPUInput) :=
  inputs.enum.filter (fun p => gpu_input_is_dynamic_uniform p.2)

/-- The freshly `MEM_callocN`ed dynamic buffer after lines 152-158: zero
size, `GPU_UBO_DYNAMIC`, bindpoint -1, flag = `GPU_UBO_FLAG_DIRTY`, and the
handle produced by `glGenBuffers`. -/
def buildUbo0 (gencode : Nat) : GPUUniformBuffer :=
  { size := 0, bindcode := gencode, bindpoint := -1,
    type := GPUUniformBufferType.GPU_UBO_DYNAMIC,
    items := [], data := fun _ => 0, id_lookup := [],
    flag_init := false, flag_dirty := true }

/-- `GPU_uniformbuffer_dynamic_sort_and_create`.  `err_supplied` models a
non-NULL `err_out`; `gencode` is the handle `glGenBuffers` yields; the
platform limit `GPU_max_ubo_size()` is the parameter `max_ubo_size`.
Faithfully to the C, the size-limit comparison happens right after handle
creation, before the sort/populate pass, while `ubo->buffer.size` is still
the 0 written by `MEM_callocN`.  The staging block `ubo->data` is allocated
only after the populate loop (`MEM_mallocN`; contents unspecified in C,
modelled as zero bytes).  Returns the result, the message written to
`err_out` (if any), and the GL trace. -/
def GPU_uniformbuffer_dynamic_sort_and_create (inputs : List GPUInput)
    (err_supplied : Bool) (gencode : Nat) (max_ubo_size : Nat) :
    BuildResult × Option String × List GLCall :=
  let r_inputs_sorted := snapshotOf inputs
  if r_inputs_sorted.length = 0 then
    (BuildResult.nullReturn, none, [])
  else
    let ubo0 := buildUbo0 gencode
    if ubo0.bindcode = 0 then
      (BuildResult.nullReturn,
       if err_supplied then some createFailedMsg else none,
       GLCall.glGenBuffers :: GPU_uniformbuffer_free_calls ubo0)
    else if ubo0.size > max_ubo_size then
      (BuildResult.nullReturn,
       if err_supplied then some tooBigMsg else none,
       GLCall.glGenBuffers :: GPU_uniformbuffer_free_calls ubo0)
    else
      let sortedInputs := gpu_uniformbuffer_inputs_sort r_inputs_sorted
      match build_ubo_loop ubo0 sortedInputs 0 with
      | none => (BuildResult.abort, none, [GLCall.glGenBuffers])
      | some (ubo1, ids) =>
        let ubo2 := { ubo1 with id_lookup := ids, data := fun _ => 0 }
        match GPU_uniformbuffer_dynamic_eval ubo2 inputs with
        | none => (BuildResult.abort, none, [GLCall.glGenBuffers])
        | some ubo3 =>
          let step := GPU_uniformbuffer_dynamic_update ubo3
          (BuildResult.built step.1, none, GLCall.glGenBuffers :: step.2)

/-- Is the call one of the two upload entry points? -/
def isUploadCall : GLCall → Bool
  | GLCall.glBufferData _ => true
  | GLCall.glBufferSubData _ _ => true
  | _ => false

/-- Is the call the full-allocation upload `glBufferData`? -/
def isFullUploadCall : GLCall → Bool
  | GLCall.glBufferData _ => true
  | _ => false

/-- Is the call the partial-range upload `glBufferSubData`? -/
def isSubUploadCall : GLCall → Bool
  | GLCall.glBufferSubData _ _ => true
  | _ => false

/-- Number of upload calls in a trace. -/
def countUploads (calls : List GLCall) : Nat :=
  (calls.filter isUploadCall).length

/-- Number of `glBufferData` calls in a trace. -/
def countFullUploads (calls : List GLCall) : Nat :=
  (calls.filter isFullUploadCall).length

/-- Number of `glBufferSubData` calls in a trace. -/
def countSubUploads (calls : List GLCall) : Nat :=
  (calls.filter isSubUploadCall).length

/-- The operations that can touch a live dynamic buffer after its build
(freeing destroys the buffer and ends its history, so it is not a step). -/
inductive UBOOp where
  | update : UBOOp
  | bind (number : Int) : UBOOp
  | unbind : UBOOp
  | tag_dirty : UBOOp
  | eval (inputs : List GPUInput) : UBOOp

/-- One operation on a dynamic buffer, with its GL trace.  On the eval
abort paths execution stops, so no later state exists; the step models the
abort as leaving the buffer unchanged. -/
def UBO_step (ubo : GPUUniformBuffer) (maxBinds : Int) :
    UBOOp → GPUUniformBuffer × List GLCall
  | UBOOp.update => GPU_uniformbuffer_dynamic_update ubo
  | UBOOp.bind n =>
    let r := GPU_uniformbuffer_bind ubo n maxBinds
    (r.1, r.2.1)
  | UBOOp.unbind => (GPU_uniformbuffer_unbind ubo, [])
  | UBOOp.tag_dirty => (GPU_uniformbuffer_tag_dirty ubo, [])
  | UBOOp.eval inputs =>
    match GPU_uniformbuffer_dynamic_eval ubo inputs with
    | some ubo1 => (ubo1, [])
    | none => (ubo, [])

/-- Run a sequence of operations, concatenating the GL traces. -/
def UBO_run (ubo : GPUUniformBuffer) (maxBinds : Int) :
    List UBOOp → GPUUniformBuffer × List GLCall
  | [] => (ubo, [])
  | op :: ops =>
    let s := UBO_step ubo maxBinds op
    let r := UBO_run s.1 maxBinds ops
    (r.1, s.2 ++ r.2)

/-- Total byte size of a list of items. -/
def sumSizes (items : List GPUUniformBufferDynamicItem) : Nat :=
  (items.map (fun it => it.size)).sum

/-- The items describe consecutive slots starting at float offset `o`:
each item sits at the running offset, its byte size is 4 times its
component count, and the next item starts `gputype` floats later. -/
def contiguousFrom : Nat → List GPUUniformBufferDynamicItem → Prop
  | _, [] => True
  | o, it :: its =>
    it.offset = o ∧ it.size = it.gputype * 4 ∧
      contiguousFrom (o + it.gputype) its

/-- A throwaway buffer used as the junk value of failed projections. -/
def junkUBO : GPUUniformBuffer :=
  { size := 0, bindcode := 0, bindpoint := 0,
    type := GPUUniformBufferType.GPU_UBO_STATIC,
    items := [], data := fun _ => 0, id_lookup := [],
    flag_init := false, flag_dirty := false }

/-- The buffer of a successful build. -/
def builtUBO : BuildResult × Option String × List GLCall →
    Option GPUUniformBuffer
  | (BuildResult.built u, _, _) => some u
  | _ => none

/-- The buffer of a successful build, with a junk fallback. -/
def forceBuilt (r : BuildResult × Option String × List GLCall) :
    GPUUniformBuffer :=
  match r.1 with
  | BuildResult.built u => u
  | _ => junkUBO

/-- Item table of a successful build. -/
def buildItems (r : BuildResult × Option String × List GLCall) :
    Option (List GPUUniformBufferDynamicItem) :=
  (builtUBO r).map (fun u => u.items)

/-- Buffer size of a successful build. -/
def buildSize (r : BuildResult × Option String × List GLCall) : Option Nat :=
  (builtUBO r).map (fun u => u.size)

/-- Lookup table of a successful build. -/
def buildLookup (r : BuildResult × Option String × List GLCall) :
    Option (List Nat) :=
  (builtUBO r).map (fun u => u.id_lookup)

/-- Error message written by a build. -/
def buildErr (r : BuildResult × Option String × List GLCall) :
    Option String :=
  r.2.1

/-- GL trace of a build. -/
def buildCalls (r : BuildResult × Option String × List GLCall) :
    List GLCall :=
  r.2.2

/-- Staging byte at address `a` after a further eval call on the buffer a
build produced. -/
def evalDataAt (r : BuildResult × Option String × List GLCall)
    (inputs : List GPUInput) (a : Nat) : Option Nat :=
  match builtUBO r with
  | some u => (GPU_uniformbuffer_dynamic_eval u inputs).map (fun v => v.data a)
  | none => none

/-- Byte `i` of an input's live-value source. -/
def liveByte (input : GPUInput) (i : Nat) : Option Nat :=
  input.dynamicvec.map (fun f => f i)

/-- A qualifying float (1-component) uniform input; live bytes all 11. -/
def exFloatIn : GPUInput :=
  { source := GPUSourceType.GPU_SOURCE_VEC_UNIFORM, link := none,
    type := GPU_FLOAT, dynamicvec := some (fun _ => 11) }

/-- A qualifying vec2 uniform input; live bytes all 33. -/
def exVec2In : GPUInput :=
  { source := GPUSourceType.GPU_SOURCE_VEC_UNIFORM, link := none,
    type := GPU_VEC2, dynamicvec := some (fun _ => 33) }

/-- A qualifying vec3 uniform input; live bytes all 44. -/
def exVec3In : GPUInput :=
  { source := GPUSourceType.GPU_SOURCE_VEC_UNIFORM, link := none,
    type := GPU_VEC3, dynamicvec := some (fun _ => 44) }

/-- A qualifying vec4 uniform input; live bytes all 22. -/
def exVec4In : GPUInput :=
  { source := GPUSourceType.GPU_SOURCE_VEC_UNIFORM, link := none,
    type := GPU_VEC4, dynamicvec := some (fun _ => 22) }

/-- A non-qualifying input (it has a producing link). -/
def exLinkedIn : GPUInput :=
  { source := GPUSourceType.GPU_SOURCE_VEC_UNIFORM, link := some (),
    type := GPU_VEC4, dynamicvec := some (fun _ => 55) }

/-- Inputs whose sort permutation is a 3-cycle: sorted order is
[vec4, vec2, float], so `id_lookup = [1, 2, 0]`. -/
def c1Inputs : List GPUInput := [exFloatIn, exVec4In, exVec2In]

/-- The build over `c1Inputs` (handle 1, generous 1000000-byte limit). -/
def c1Build : BuildResult × Option String × List GLCall :=
  GPU_uniformbuffer_dynamic_sort_and_create c1Inputs true 1 1000000

/-- Two vec4 inputs: items get float-unit offsets 0 and 4 with byte size 16
each. -/
def c3Inputs : List GPUInput := [exVec4In, exVec4In]

/-- The build over `c3Inputs`. -/
def c3Build : BuildResult × Option String × List GLCall :=
  GPU_uniformbuffer_dynamic_sort_and_create c3Inputs true 1 1000000

/-- A dynamic buffer in the Initialized-Clean state. -/
def exCleanUbo : GPUUniformBuffer :=
  { size := 16, bindcode := 5, bindpoint := -1,
    type := GPUUniformBufferType.GPU_UBO_DYNAMIC,
    items := [{ gputype := 4, offset := 0, size := 16 }],
    data := fun _ => 0, id_lookup := [0],
    flag_init := true, flag_dirty := false }

/-- A dynamic buffer that has not been uploaded yet (dirty, uninitialized),
as `GPU_uniformbuffer_dynamic_sort_and_create` leaves it just before its
forced initial update. -/
def exFreshUbo : GPUUniformBuffer :=
  { size := 16, bindcode := 5, bindpoint := -1,
    type := GPUUniformBufferType.GPU_UBO_DYNAMIC,
    items := [{ gputype := 4, offset := 0, size := 16 }],
    data := fun _ => 0, id_lookup := [0],
    flag_init := false, flag_dirty := true }

/-- The build used for the too-large demonstration: a single vec4 uniform
(layout size 16 bytes) against a platform limit of 8 bytes. -/
def c2Build : BuildResult × Option String × List GLCall :=
  GPU_uniformbuffer_dynamic_sort_and_create [exVec4In] true 1 8

/-- A build used as a concrete witness of the layout invariants. -/
def c3wBuild : BuildResult × Option String × List GLCall :=
  GPU_uniformbuffer_dynamic_sort_and_create [exVec4In, exFloatIn] true 1 100000

/-- C7: binding at a slot at or above the platform's max bind-point count
emits the diagnostic and returns with no GL call and the buffer record (bind
slot included) completely unchanged. -/
theorem c7_bind_slot_overflow_noop (ubo : GPUUniformBuffer)
    (number maxBinds : Int) (h : number ≥ maxBinds) :
    GPU_uniformbuffer_bind ubo number maxBinds = (ubo, [], true) := by
  unfold GPU_uniformbuffer_bind
  rw [if_pos h]

/-- Witness for C7 at slot 9 with an 8-slot platform. -/
theorem c7_bind_slot_overflow_noop_witness :
    (9 : Int) ≥ 8 ∧
      GPU_uniformbuffer_bind exCleanUbo 9 8 = (exCleanUbo, [], true) :=
  ⟨by decide, c7_bind_slot_overflow_noop exCleanUbo 9 8 (by decide)⟩

/-- C4 counterexample: a 3-component entry that is last in the list (no
successor, hence not immediately followed by a 1-component entry) is NOT
padded: `get_padded_gpu_type` keeps it at `GPU_VEC3`, while the claim says
it must become `GPU_VEC4`. -/
theorem c4_trailing_vec3_not_padded :
    get_padded_gpu_type exVec3In none = GPU_VEC3 ∧
      get_padded_gpu_type exVec3In none ≠ GPU_VEC4 := by
  decide

/-- C4 amended: a 3-component entry is treated as 4-component exactly when
it HAS an immediate successor and that successor is not a 1-component
entry; a trailing 3-component entry is left unpadded. -/
theorem c4_vec3_padding_iff_nonfloat_successor (input : GPUInput)
    (next : Option GPUInput) (h : input.type = GPU_VEC3) :
    get_padded_gpu_type input next = GPU_VEC4 ↔
      ∃ n, next = some n ∧ n.type ≠ GPU_FLOAT := by
  cases next with
  | none => simp [get_padded_gpu_type, h, GPU_VEC3, GPU_VEC4]
  | some n =>
    by_cases hn : n.type = GPU_FLOAT
    · simp [get_padded_gpu_type, h, hn, GPU_VEC3, GPU_VEC4, GPU_FLOAT]
    · simp [get_padded_gpu_type, h, hn]

/-- Witness for the amended C4: a vec3 followed by a vec2 is padded. -/
theorem c4_vec3_padding_iff_nonfloat_successor_witness :
    exVec3In.type = GPU_VEC3 ∧
      (get_padded_gpu_type exVec3In (some exVec2In) = GPU_VEC4 ↔
        ∃ n, (some exVec2In : Option GPUInput) = some n ∧
          n.type ≠ GPU_FLOAT) :=
  ⟨rfl, c4_vec3_padding_iff_nonfloat_successor exVec3In (some exVec2In) rfl⟩

/-- C9: `gpu_uniformbuffer_populate` hard-asserts on component classes above
`MAX_UBO_GPU_TYPE` (= vec4), and every item it does add has the asserted
class bound and the `gputype * sizeof(float)` byte size. -/
theorem c9_populate_asserts_max_type (ubo : GPUUniformBuffer)
    (gputype offset : Nat) :
    (MAX_UBO_GPU_TYPE < gputype →
      gpu_uniformbuffer_populate ubo gputype offset = none) ∧
    (∀ u, gpu_uniformbuffer_populate ubo gputype offset = some u →
      gputype ≤ MAX_UBO_GPU_TYPE ∧
      u.items = ubo.items ++
        [{ gputype := gputype, offset := offset, size := gputype * 4 }]) := by
  unfold gpu_uniformbuffer_populate
  by_cases h : gputype ≤ MAX_UBO_GPU_TYPE
  · refine ⟨fun hlt => absurd h (by omega), fun u hu => ?_⟩
    rw [if_pos h] at hu
    cases hu
    exact ⟨h, rfl⟩
  · refine ⟨fun _ => by rw [if_neg h], fun u hu => ?_⟩
    rw [if_neg h] at hu
    cases hu

/-- Witness for C9: a mat3-sized class (9 components) trips the assert. -/
theorem c9_populate_asserts_max_type_witness :
    MAX_UBO_GPU_TYPE < 9 ∧ gpu_uniformbuffer_populate junkUBO 9 0 = none :=
  ⟨by decide, (c9_populate_asserts_max_type junkUBO 9 0).1 (by decide)⟩

/-- C2 (code bug): the size-limit check runs before the layout pass, while
`ubo->buffer.size` is still 0, so it can never fire.  With a platform limit
of 8 bytes, a single vec4 input (16-byte layout) builds successfully: the
returned buffer's size 16 exceeds the limit, no "too big" message is
written, and the GPU handle is not released. -/
theorem c2_size_limit_check_never_fires :
    buildSize c2Build = some 16 ∧ 8 < 16 ∧ buildErr c2Build = none ∧
      GLCall.glDeleteBuffers 1 ∉ buildCalls c2Build := by
  decide

/-- C1 (code bug): `id_lookup` stores, per SORTED position, the input's
ORIGINAL index, but `GPU_uniformbuffer_dynamic_eval` walks the inputs in
original order and uses the consumed entry to index the (sorted) item list.
For the inputs [float, vec4, vec2] the sort permutation is a 3-cycle, so
after a post-build eval the staging bytes [0,16) - the item built from the
vec4 input - hold the vec2's live bytes (33), not the vec4's (22). -/
theorem c1_eval_misroutes_staging_bytes :
    buildItems c1Build =
      some [{ gputype := 4, offset := 0, size := 16 },
            { gputype := 2, offset := 4, size := 8 },
            { gputype := 1, offset := 6, size := 4 }] ∧
    buildLookup c1Build = some [1, 2, 0] ∧
    evalDataAt c1Build c1Inputs 0 = some 33 ∧
    liveByte exVec4In 0 = some 22 ∧ (33 : Nat) ≠ 22 := by
  decide

/-- C3 counterexample: two vec4 inputs build items with FLOAT-unit offsets
0 and 4 (byte sizes 16 each, buffer size 32).  Read as byte ranges, as the
claim states them, `[0, 16)` and `[4, 20)` overlap at byte 4 and leave byte
31 < 32 uncovered: the ranges are neither disjoint nor a cover of
`[0, buffer.size)`. -/
theorem c3_byte_range_reading_fails :
    buildItems c3Build =
      some [{ gputype := 4, offset := 0, size := 16 },
            { gputype := 4, offset := 4, size := 16 }] ∧
    buildSize c3Build = some 32 ∧
    ((0 ≤ 4 ∧ 4 < 0 + 16) ∧ (4 ≤ 4 ∧ 4 < 4 + 16)) ∧
    (¬ (0 ≤ 31 ∧ 31 < 0 + 16) ∧ ¬ (4 ≤ 31 ∧ 31 < 4 + 16)) := by
  decide

/-- C8: when no input qualifies as a dynamic uniform the build returns NULL
before touching the GPU: no error message and an empty GL trace (in
particular no `glGenBuffers`). -/
theorem c8_empty_qualifying_returns_null (inputs : List GPUInput)
    (err_supplied : Bool) (gencode max_ubo_size : Nat)
    (h : ∀ input ∈ inputs, gpu_input_is_dynamic_uniform input = false) :
    GPU_uniformbuffer_dynamic_sort_and_create inputs err_supplied gencode
      max_ubo_size = (BuildResult.nullReturn, none, []) := by
  have hsnap : snapshotOf inputs = [] := by
    unfold snapshotOf
    rw [List.filter_eq_nil_iff]
    intro p hp
    simp [h p.2 (List.snd_mem_of_mem_enum hp)]
  unfold GPU_uniformbuffer_dynamic_sort_and_create
  rw [hsnap]
  rfl

/-- Witness for C8: a single linked (non-qualifying) input. -/
theorem c8_empty_qualifying_returns_null_witness :
    GPU_uniformbuffer_dynamic_sort_and_create [exLinkedIn] true 1 100 =
      (BuildResult.nullReturn, none, []) :=
  c8_empty_qualifying_returns_null [exLinkedIn] true 1 100 (by decide)

/-- Upload counts add over concatenated traces. -/
theorem countUploads_append (a b : List GLCall) :
    countUploads (a ++ b) = countUploads a + countUploads b := by
  simp [countUploads, List.filter_append]

/-- Full-upload counts add over concatenated traces. -/
theorem countFullUploads_append (a b : List GLCall) :
    countFullUploads (a ++ b) =
      countFullUploads a + countFullUploads b := by
  simp [countFullUploads, List.filter_append]

/-- A bind of a clean buffer emits no upload call and leaves it clean. -/
theorem bind_clean_no_upload (ubo : GPUUniformBuffer) (number maxBinds : Int)
    (hclean : ubo.flag_dirty = false) :
    countUploads (GPU_uniformbuffer_bind ubo number maxBinds).2.1 = 0 ∧
      ((GPU_uniformbuffer_bind ubo number maxBinds).1).flag_dirty = false := by
  unfold GPU_uniformbuffer_bind
  split
  · exact ⟨rfl, hclean⟩
  · rw [if_neg (by simp [hclean])]
    constructor
    · show countUploads ([] ++ _) = 0
      rw [countUploads_append]
      split <;> simp [countUploads, isUploadCall]
    · exact hclean

/-- C6: from the Initialized-Clean state, `GPU_uniformbuffer_bind` performs
no upload GPU call before binding, and two binds in a row perform the
upload at most once (here: zero times) between them, the first bind leaving
the buffer clean. -/
theorem c6_clean_bind_uploads_at_most_once (ubo : GPUUniformBuffer)
    (number maxBinds : Int)
    (_hdyn : ubo.type = GPUUniformBufferType.GPU_UBO_DYNAMIC)
    (_hinit : ubo.flag_init = true) (hclean : ubo.flag_dirty = false) :
    countUploads (GPU_uniformbuffer_bind ubo number maxBinds).2.1 = 0 ∧
    countUploads ((GPU_uniformbuffer_bind ubo number maxBinds).2.1 ++
      (GPU_uniformbuffer_bind (GPU_uniformbuffer_bind ubo number maxBinds).1
        number maxBinds).2.1) ≤ 1 := by
  obtain ⟨h1, hd1⟩ := bind_clean_no_upload ubo number maxBinds hclean
  obtain ⟨h2, _⟩ :=
    bind_clean_no_upload (GPU_uniformbuffer_bind ubo number maxBinds).1
      number maxBinds hd1
  refine ⟨h1, ?_⟩
  rw [countUploads_append, h1, h2]
  omega

/-- Witness for C6: the clean example buffer bound twice at slot 0. -/
theorem c6_clean_bind_uploads_at_most_once_witness :
    countUploads (GPU_uniformbuffer_bind exCleanUbo 0 8).2.1 = 0 ∧
    countUploads ((GPU_uniformbuffer_bind exCleanUbo 0 8).2.1 ++
      (GPU_uniformbuffer_bind (GPU_uniformbuffer_bind exCleanUbo 0 8).1
        0 8).2.1) ≤ 1 :=
  c6_clean_bind_uploads_at_most_once exCleanUbo 0 8 rfl rfl rfl

/-- An uninitialized buffer's update takes the full `glBufferData` path,
sets INITIALIZED and clears DIRTY. -/
theorem dynamic_update_first (ubo : GPUUniformBuffer)
    (h : ubo.flag_init = false) :
    countFullUploads (GPU_uniformbuffer_dynamic_update ubo).2 = 1 ∧
    (GPU_uniformbuffer_dynamic_update ubo).1.flag_init = true ∧
    (GPU_uniformbuffer_dynamic_update ubo).1.flag_dirty = false := by
  unfold GPU_uniformbuffer_dynamic_update
  rw [if_neg (by simp [h])]
  exact ⟨rfl, rfl, rfl⟩

/-- An initialized buffer's update takes only the `glBufferSubData` path
and clears DIRTY. -/
theorem dynamic_update_subsequent (ubo : GPUUniformBuffer)
    (h : ubo.flag_init = true) :
    countFullUploads (GPU_uniformbuffer_dynamic_update ubo).2 = 0 ∧
    countSubUploads (GPU_uniformbuffer_dynamic_update ubo).2 = 1 ∧
    (GPU_uniformbuffer_dynamic_update ubo).1.flag_dirty = false := by
  unfold GPU_uniformbuffer_dynamic_update
  rw [if_pos h]
  exact ⟨rfl, rfl, rfl⟩

/-- A successful eval changes only the staging block. -/
theorem eval_fields (ubo : GPUUniformBuffer) (inputs : List GPUInput)
    (u : GPUUniformBuffer)
    (h : GPU_uniformbuffer_dynamic_eval ubo inputs = some u) :
    u.items = ubo.items ∧ u.size = ubo.size ∧ u.flag_init = ubo.flag_init ∧
      u.flag_dirty = ubo.flag_dirty ∧ u.id_lookup = ubo.id_lookup := by
  unfold GPU_uniformbuffer_dynamic_eval at h
  cases hl : eval_loop ubo.items inputs ubo.id_lookup ubo.data with
  | none => rw [hl] at h; simp at h
  | some d =>
    rw [hl] at h
    simp only [Option.map_some'] at h
    cases h
    exact ⟨rfl, rfl, rfl, rfl, rfl⟩

/-- No buffer operation modelled by `UBO_step` ever clears the INITIALIZED
flag (only freeing the buffer destroys it). -/
theorem step_keeps_init (ubo : GPUUniformBuffer) (maxBinds : Int)
    (op : UBOOp) (h : ubo.flag_init = true) :
    ((UBO_step ubo maxBinds op).1).flag_init = true := by
  have hupd : ((GPU_uniformbuffer_dynamic_update ubo).1).flag_init = true := by
    unfold GPU_uniformbuffer_dynamic_update
    rw [if_pos h]
    exact h
  cases op with
  | update => exact hupd
  | bind n =>
    show ((GPU_uniformbuffer_bind ubo n maxBinds).1).flag_init = true
    unfold GPU_uniformbuffer_bind
    by_cases hn : n ≥ maxBinds
    · rw [if_pos hn]
      exact h
    · rw [if_neg hn]
      by_cases hc : ubo.type = GPUUniformBufferType.GPU_UBO_DYNAMIC ∧
          ubo.flag_dirty = true
      · rw [if_pos hc]
        exact hupd
      · rw [if_neg hc]
        exact h
  | unbind => exact h
  | tag_dirty => exact h
  | eval inputs =>
    show ((match GPU_uniformbuffer_dynamic_eval ubo inputs with
      | some u => (u, ([] : List GLCall))
      | none => (ubo, [])).1).flag_init = true
    cases he : GPU_uniformbuffer_dynamic_eval ubo inputs with
    | none => exact h
    | some u => exact (eval_fields ubo inputs u he).2.2.1.trans h

/-- From an initialized state no single operation emits `glBufferData`. -/
theorem step_no_full_upload (ubo : GPUUniformBuffer) (maxBinds : Int)
    (op : UBOOp) (h : ubo.flag_init = true) :
    countFullUploads (UBO_step ubo maxBinds op).2 = 0 := by
  have hbase : ∀ (n : Int) (c : Nat),
      countFullUploads
        (if c ≠ 0 then [GLCall.glBindBufferBase n c] else []) = 0 := by
    intro n c
    by_cases hc : c ≠ 0
    · rw [if_pos hc]
      rfl
    · rw [if_neg hc]
      rfl
  cases op with
  | update =>
    exact (dynamic_update_subsequent ubo h).1
  | bind n =>
    show countFullUploads (GPU_uniformbuffer_bind ubo n maxBinds).2.1 = 0
    unfold GPU_uniformbuffer_bind
    by_cases hn : n ≥ maxBinds
    · rw [if_pos hn]
      rfl
    · rw [if_neg hn]
      by_cases hc : ubo.type = GPUUniformBufferType.GPU_UBO_DYNAMIC ∧
          ubo.flag_dirty = true
      · rw [if_pos hc]
        show countFullUploads ((GPU_uniformbuffer_dynamic_update ubo).2 ++ _) = 0
        rw [countFullUploads_append, (dynamic_update_subsequent ubo h).1,
          hbase n (GPU_uniformbuffer_dynamic_update ubo).1.bindcode]
      · rw [if_neg hc]
        show countFullUploads (([] : List GLCall) ++ _) = 0
        rw [countFullUploads_append, hbase n ubo.bindcode]
        rfl
  | unbind => rfl
  | tag_dirty => rfl
  | eval inputs =>
    show countFullUploads (match GPU_uniformbuffer_dynamic_eval ubo inputs with
      | some u => (u, ([] : List GLCall))
      | none => (ubo, [])).2 = 0
    cases GPU_uniformbuffer_dynamic_eval ubo inputs <;> rfl

/-- From an initialized state no operation sequence ever emits
`glBufferData` again. -/
theorem run_no_full_upload (ubo : GPUUniformBuffer) (maxBinds : Int)
    (ops : List UBOOp) (h : ubo.flag_init = true) :
    countFullUploads (UBO_run ubo maxBinds ops).2 = 0 := by
  induction ops generalizing ubo with
  | nil => rfl
  | cons op ops ih =>
    show countFullUploads ((UBO_step ubo maxBinds op).2 ++
      (UBO_run (UBO_step ubo maxBinds op).1 maxBinds ops).2) = 0
    rw [countFullUploads_append, step_no_full_upload ubo maxBinds op h,
      ih _ (step_keeps_init ubo maxBinds op h)]

/-- C10: the full-allocation upload path is taken exactly on the first call
to `GPU_uniformbuffer_dynamic_update` (which sets INITIALIZED and clears
DIRTY); once INITIALIZED, updates take only the `glBufferSubData` path, no
modelled operation (anything short of freeing the buffer) clears
INITIALIZED, and no operation sequence from an initialized state ever emits
`glBufferData` again.  Every update call clears the dirty flag on exit. -/
theorem c10_full_upload_exactly_once (ubo : GPUUniformBuffer)
    (maxBinds : Int) :
    (ubo.flag_init = false →
      countFullUploads (GPU_uniformbuffer_dynamic_update ubo).2 = 1 ∧
      (GPU_uniformbuffer_dynamic_update ubo).1.flag_init = true ∧
      (GPU_uniformbuffer_dynamic_update ubo).1.flag_dirty = false) ∧
    (ubo.flag_init = true →
      countFullUploads (GPU_uniformbuffer_dynamic_update ubo).2 = 0 ∧
      countSubUploads (GPU_uniformbuffer_dynamic_update ubo).2 = 1 ∧
      (GPU_uniformbuffer_dynamic_update ubo).1.flag_dirty = false) ∧
    (∀ op, ubo.flag_init = true →
      ((UBO_step ubo maxBinds op).1).flag_init = true) ∧
    (∀ ops, ubo.flag_init = true →
      countFullUploads (UBO_run ubo maxBinds ops).2 = 0) :=
  ⟨dynamic_update_first ubo, dynamic_update_subsequent ubo,
   fun op h => step_keeps_init ubo maxBinds op h,
   fun ops h => run_no_full_upload ubo maxBinds ops h⟩

/-- Witness for C10: the freshly built buffer's first update, and a mixed
operation sequence on an already-initialized buffer. -/
theorem c10_full_upload_exactly_once_witness :
    (countFullUploads (GPU_uniformbuffer_dynamic_update exFreshUbo).2 = 1 ∧
     (GPU_uniformbuffer_dynamic_update exFreshUbo).1.flag_init = true ∧
     (GPU_uniformbuffer_dynamic_update exFreshUbo).1.flag_dirty = false) ∧
    countFullUploads (UBO_run exCleanUbo 8
      [UBOOp.update, UBOOp.tag_dirty, UBOOp.bind 0, UBOOp.update]).2 = 0 :=
  ⟨(c10_full_upload_exactly_once exFreshUbo 8).1 rfl,
   (c10_full_upload_exactly_once exCleanUbo 8).2.2.2
     [UBOOp.update, UBOOp.tag_dirty, UBOOp.bind 0, UBOOp.update] rfl⟩

/-- `linkGE` is the descending comparison on the input type value. -/
theorem linkGE_iff (a b : Nat × GPUInput) :
    linkGE a b ↔ b.2.type ≤ a.2.type := by
  unfold linkGE inputs_cmp
  split_ifs with h
  · simp
    omega
  · simp
    omega

/-- Inserting a node with `List.orderedInsert linkGE` prepends it to the
per-class filter and leaves the other classes' filters unchanged. -/
theorem filter_orderedInsert_type (t : Nat) (a : Nat × GPUInput)
    (l : List (Nat × GPUInput)) :
    (List.orderedInsert linkGE a l).filter (fun e => decide (e.2.type = t)) =
      (if a.2.type = t then [a] else []) ++
        l.filter (fun e => decide (e.2.type = t)) := by
  induction l with
  | nil =>
    by_cases ha : a.2.type = t <;> simp [List.orderedInsert, ha]
  | cons b bs ih =>
    by_cases hr : linkGE a b
    · rw [List.orderedInsert, if_pos hr]
      by_cases ha : a.2.type = t <;> simp [List.filter_cons, ha]
    · have hlt : a.2.type < b.2.type := by
        rcases Nat.lt_or_ge a.2.type b.2.type with h1 | h1
        · exact h1
        · exact absurd ((linkGE_iff a b).mpr h1) hr
      rw [List.orderedInsert, if_neg hr]
      by_cases ha : a.2.type = t <;> by_cases hb : b.2.type = t
      · exact absurd hlt (by omega)
      · simp [List.filter_cons, ha, hb, ih]
      · simp [List.filter_cons, ha, hb, ih]
      · simp [List.filter_cons, ha, hb, ih]

/-- Insertion sort with `linkGE` preserves each class's subsequence. -/
theorem filter_insertionSort_type (t : Nat) (l : List (Nat × GPUInput)) :
    (List.insertionSort linkGE l).filter (fun e => decide (e.2.type = t)) =
      l.filter (fun e => decide (e.2.type = t)) := by
  induction l with
  | nil => rfl
  | cons a l ih =>
    rw [List.insertionSort, filter_orderedInsert_type, ih, List.filter_cons]
    by_cases ha : a.2.type = t <;> simp [ha]

/-- C5: the sort pass (`BLI_listbase_sort` driven by `inputs_cmp`) orders
the snapshot by descending component-width class, keeps the relative order
of entries of equal class (each class's filtered subsequence is unchanged),
and permutes the input list. -/
theorem c5_sort_descending_and_stable (l : List (Nat × GPUInput))
    (_h : ∀ e ∈ l, 1 ≤ e.2.type ∧ e.2.type ≤ 4) :
    (BLI_listbase_sort l).Sorted (fun a b => b.2.type ≤ a.2.type) ∧
    (∀ t, (BLI_listbase_sort l).filter (fun e => decide (e.2.type = t)) =
      l.filter (fun e => decide (e.2.type = t))) ∧
    (BLI_listbase_sort l).Perm l := by
  refine ⟨?_, fun t => filter_insertionSort_type t l,
    List.perm_insertionSort linkGE l⟩
  have hs : (List.insertionSort linkGE l).Sorted linkGE :=
    List.sorted_insertionSort linkGE l
  exact List.Pairwise.imp (fun hab => (linkGE_iff _ _).mp hab) hs

/-- Witness for C5: the vec4 class's subsequence of a concrete two-entry
snapshot is unchanged by the sort. -/
theorem c5_sort_descending_and_stable_witness :
    (BLI_listbase_sort [(0, exFloatIn), (1, exVec4In)]).filter
        (fun e => decide (e.2.type = 4)) =
      ([(0, exFloatIn), (1, exVec4In)] : List (Nat × GPUInput)).filter
        (fun e => decide (e.2.type = 4)) :=
  (c5_sort_descending_and_stable [(0, exFloatIn), (1, exVec4In)]
    (by decide)).2.1 4

/-- `sumSizes` over nil. -/
theorem sumSizes_nil : sumSizes [] = 0 := rfl

/-- `sumSizes` over cons. -/
theorem sumSizes_cons (it : GPUUniformBufferDynamicItem)
    (its : List GPUUniformBufferDynamicItem) :
    sumSizes (it :: its) = it.size + sumSizes its := by
  simp [sumSizes]

/-- The populate loop appends a contiguous run of items starting at the
running offset and grows the buffer size by exactly their total byte size. -/
theorem build_ubo_loop_items (l : List (Nat × GPUInput)) :
    ∀ ubo offset ubo1 ids,
      build_ubo_loop ubo l offset = some (ubo1, ids) →
      ∃ newItems, ubo1.items = ubo.items ++ newItems ∧
        contiguousFrom offset newItems ∧
        ubo1.size = ubo.size + sumSizes newItems := by
  induction l with
  | nil =>
    intro ubo offset ubo1 ids h
    unfold build_ubo_loop at h
    cases h
    exact ⟨[], by simp, trivial, by simp [sumSizes_nil]⟩
  | cons p rest ih =>
    intro ubo offset ubo1 ids h
    obtain ⟨idx, input⟩ := p
    unfold build_ubo_loop at h
    by_cases hq : gpu_input_is_dynamic_uniform input = true
    · rw [if_pos hq] at h
      cases hpop : gpu_uniformbuffer_populate ubo
          (get_padded_gpu_type input (Option.map Prod.snd rest.head?))
          offset with
      | none => rw [hpop] at h; simp at h
      | some uboX =>
        rw [hpop] at h
        dsimp only [] at h
        cases hrec : build_ubo_loop uboX rest
            (offset +
              get_padded_gpu_type input (Option.map Prod.snd rest.head?)) with
        | none => rw [hrec] at h; simp at h
        | some pr =>
          obtain ⟨ubo2, ids2⟩ := pr
          rw [hrec] at h
          dsimp only [] at h
          cases h
          obtain ⟨newItems, hitems, hcf, hsize⟩ :=
            ih uboX _ _ _ hrec
          have hg4 : get_padded_gpu_type input
              (Option.map Prod.snd rest.head?) ≤ MAX_UBO_GPU_TYPE := by
            by_contra hc
            unfold gpu_uniformbuffer_populate at hpop
            rw [if_neg hc] at hpop
            cases hpop
          unfold gpu_uniformbuffer_populate at hpop
          rw [if_pos hg4] at hpop
          cases hpop
          refine ⟨⟨get_padded_gpu_type input (Option.map Prod.snd rest.head?),
              offset,
              get_padded_gpu_type input (Option.map Prod.snd rest.head?) * 4⟩
                :: newItems,
            ?_, ⟨rfl, rfl, hcf⟩, ?_⟩
          · rw [hitems]
            simp
          · rw [hsize, sumSizes_cons]
            simp
            omega
    · rw [if_neg hq] at h
      exact ih ubo offset ubo1 ids h

/-- Partial byte sums step by the indexed item's size. -/
theorem sumSizes_take_succ (items : List GPUUniformBufferDynamicItem) :
    ∀ i (hi : i < items.length),
      sumSizes (items.take (i + 1)) =
        sumSizes (items.take i) + (items.get ⟨i, hi⟩).size := by
  induction items with
  | nil => intro i hi; exact absurd hi (by simp)
  | cons it its ih =>
    intro i hi
    cases i with
    | zero => simp [sumSizes]
    | succ i =>
      have hi' : i < its.length := Nat.lt_of_succ_lt_succ hi
      have step := ih i hi'
      show sumSizes (it :: its.take (i + 1)) =
        sumSizes (it :: its.take i) + (its.get ⟨i, hi'⟩).size
      rw [sumSizes_cons, sumSizes_cons, step]
      omega

/-- Partial byte sums are monotone in the cut point. -/
theorem sumSizes_take_mono (items : List GPUUniformBufferDynamicItem) :
    ∀ i j, i ≤ j →
      sumSizes (items.take i) ≤ sumSizes (items.take j) := by
  induction items with
  | nil => intro i j _; simp
  | cons it its ih =>
    intro i j hij
    cases i with
    | zero => simp [sumSizes]
    | succ i =>
      cases j with
      | zero => exact absurd hij (by omega)
      | succ j =>
        show sumSizes (it :: its.take i) ≤ sumSizes (it :: its.take j)
        rw [sumSizes_cons, sumSizes_cons]
        exact Nat.add_le_add_left (ih i j (Nat.le_of_succ_le_succ hij)) _

/-- In a contiguous run starting at float offset `o`, the `k`-th item's
byte offset `4 * offset` is `4 * o` plus the bytes before it, and its byte
size is 4 times its component count. -/
theorem contiguousFrom_get (items : List GPUUniformBufferDynamicItem) :
    ∀ o, contiguousFrom o items →
      ∀ k (hk : k < items.length),
        4 * (items.get ⟨k, hk⟩).offset = 4 * o + sumSizes (items.take k) ∧
        (items.get ⟨k, hk⟩).size = (items.get ⟨k, hk⟩).gputype * 4 := by
  induction items with
  | nil => intro o _ k hk; exact absurd hk (by simp)
  | cons it its ih =>
    intro o hcf k hk
    obtain ⟨ho, hsz, hcf2⟩ := hcf
    cases k with
    | zero =>
      constructor
      · show 4 * it.offset = 4 * o + sumSizes []
        rw [ho, sumSizes_nil]
        omega
      · exact hsz
    | succ k =>
      have hk' : k < its.length := Nat.lt_of_succ_lt_succ hk
      have step := ih (o + it.gputype) hcf2 k hk'
      constructor
      · show 4 * (its.get ⟨k, hk'⟩).offset =
          4 * o + sumSizes (it :: its.take k)
        rw [sumSizes_cons, step.1, hsz]
        omega
      · exact step.2

/-- Every byte below a contiguous run's total size lies inside the scaled
range of some item of the run. -/
theorem contiguousFrom_cover (items : List GPUUniformBufferDynamicItem) :
    ∀ o b, contiguousFrom o items →
      4 * o ≤ b → b < 4 * o + sumSizes items →
      ∃ k, ∃ hk : k < items.length,
        4 * (items.get ⟨k, hk⟩).offset ≤ b ∧
        b < 4 * (items.get ⟨k, hk⟩).offset + (items.get ⟨k, hk⟩).size := by
  induction items with
  | nil =>
    intro o b _ h1 h2
    rw [sumSizes_nil] at h2
    exact absurd h2 (by omega)
  | cons it its ih =>
    intro o b hcf h1 h2
    obtain ⟨ho, hsz, hcf2⟩ := hcf
    by_cases hb : b < 4 * o + it.size
    · refine ⟨0, by simp, ?_, ?_⟩
      · show 4 * it.offset ≤ b
        rw [ho]
        exact h1
      · show b < 4 * it.offset + it.size
        rw [ho]
        exact hb
    · rw [sumSizes_cons] at h2
      have h1' : 4 * (o + it.gputype) ≤ b := by
        rw [hsz] at hb
        omega
      have h2' : b < 4 * (o + it.gputype) + sumSizes its := by
        rw [hsz] at h2
        omega
      obtain ⟨k, hk, ha, hb2⟩ := ih (o + it.gputype) b hcf2 h1' h2'
      exact ⟨k + 1, Nat.succ_lt_succ hk, ha, hb2⟩

/-- `GPU_uniformbuffer_dynamic_update` never changes the item table or the
buffer size. -/
theorem dynamic_update_fields (ubo : GPUUniformBuffer) :
    (GPU_uniformbuffer_dynamic_update ubo).1.items = ubo.items ∧
      (GPU_uniformbuffer_dynamic_update ubo).1.size = ubo.size := by
  unfold GPU_uniformbuffer_dynamic_update
  by_cases h : ubo.flag_init = true
  · rw [if_pos h]
    exact ⟨rfl, rfl⟩
  · rw [if_neg h]
    exact ⟨rfl, rfl⟩

/-- A successful build's buffer carries exactly the item table and size
computed by the populate loop over the sorted snapshot. -/
theorem build_built_inv (inputs : List GPUInput) (err_supplied : Bool)
    (gencode max_ubo_size : Nat) (u : GPUUniformBuffer)
    (h : (GPU_uniformbuffer_dynamic_sort_and_create inputs err_supplied
      gencode max_ubo_size).1 = BuildResult.built u) :
    ∃ ubo1 ids,
      build_ubo_loop (buildUbo0 gencode)
        (gpu_uniformbuffer_inputs_sort (snapshotOf inputs)) 0 =
          some (ubo1, ids) ∧
      u.items = ubo1.items ∧ u.size = ubo1.size := by
  unfold GPU_uniformbuffer_dynamic_sort_and_create at h
  by_cases h1 : (snapshotOf inputs).length = 0
  · rw [if_pos h1] at h
    simp at h
  · rw [if_neg h1] at h
    dsimp only [] at h
    by_cases h2 : (buildUbo0 gencode).bindcode = 0
    · rw [if_pos h2] at h
      simp at h
    · rw [if_neg h2] at h
      by_cases h3 : (buildUbo0 gencode).size > max_ubo_size
      · rw [if_pos h3] at h
        simp at h
      · rw [if_neg h3] at h
        cases hloop : build_ubo_loop (buildUbo0 gencode)
            (gpu_uniformbuffer_inputs_sort (snapshotOf inputs)) 0 with
        | none =>
          rw [hloop] at h
          simp at h
        | some pr =>
          obtain ⟨ubo1, ids⟩ := pr
          rw [hloop] at h
          dsimp only [] at h
          cases heval : GPU_uniformbuffer_dynamic_eval
              { ubo1 with id_lookup := ids, data := fun _ => 0 } inputs with
          | none =>
            rw [heval] at h
            simp at h
          | some ubo3 =>
            rw [heval] at h
            dsimp only [] at h
            have hu : (GPU_uniformbuffer_dynamic_update ubo3).1 = u := by
              cases h
              rfl
            have hef := eval_fields _ inputs ubo3 heval
            have hduf := dynamic_update_fields ubo3
            refine ⟨ubo1, ids, rfl, ?_, ?_⟩
            · rw [← hu, hduf.1, hef.1]
            · rw [← hu, hduf.2, hef.2.1]

/-- C3 amended: item offsets are recorded in 4-byte float units, so the
byte ranges are `[4 * offset, 4 * offset + size)`.  For every input list of
component classes 1-4, after a successful build the item byte sizes sum to
`buffer.size`, and the scaled ranges are pairwise disjoint (in layout
order, each ends where the next begins or later) and together cover
`[0, buffer.size)`. -/
theorem c3_items_partition_buffer (inputs : List GPUInput)
    (err_supplied : Bool) (gencode max_ubo_size : Nat)
    (u : GPUUniformBuffer)
    (_hcls : ∀ input ∈ inputs, 1 ≤ input.type ∧ input.type ≤ 4)
    (hb : (GPU_uniformbuffer_dynamic_sort_and_create inputs err_supplied
      gencode max_ubo_size).1 = BuildResult.built u) :
    sumSizes u.items = u.size ∧
    (∀ i j (hi : i < u.items.length) (hj : j < u.items.length), i < j →
      4 * (u.items.get ⟨i, hi⟩).offset + (u.items.get ⟨i, hi⟩).size ≤
        4 * (u.items.get ⟨j, hj⟩).offset) ∧
    (∀ b, b < u.size → ∃ k, ∃ hk : k < u.items.length,
      4 * (u.items.get ⟨k, hk⟩).offset ≤ b ∧
      b < 4 * (u.items.get ⟨k, hk⟩).offset + (u.items.get ⟨k, hk⟩).size) := by
  obtain ⟨ubo1, ids, hloop, hitems, hsize⟩ :=
    build_built_inv inputs err_supplied gencode max_ubo_size u hb
  obtain ⟨newItems, hni, hcf, hns⟩ :=
    build_ubo_loop_items _ (buildUbo0 gencode) 0 ubo1 ids hloop
  have hitems2 : u.items = newItems := by
    rw [hitems, hni]
    rfl
  have hsize2 : u.size = sumSizes newItems := by
    rw [hsize, hns]
    simp [buildUbo0]
  rw [hitems2, hsize2]
  refine ⟨rfl, ?_, ?_⟩
  · intro i j hi2 hj2 hij
    have gi := contiguousFrom_get newItems 0 hcf i hi2
    have gj := contiguousFrom_get newItems 0 hcf j hj2
    have hstep := sumSizes_take_succ newItems i hi2
    have hmono := sumSizes_take_mono newItems (i + 1) j hij
    omega
  · intro b hbnd2
    exact contiguousFrom_cover newItems 0 b hcf (by omega) (by omega)

/-- Witness for the amended C3: the vec4+float build satisfies the size
invariant. -/
theorem c3_items_partition_buffer_witness :
    sumSizes (forceBuilt c3wBuild).items = (forceBuilt c3wBuild).size :=
  (c3_items_partition_buffer [exVec4In, exFloatIn] true 1 100000
    (forceBuilt c3wBuild) (by decide) rfl).1
